import Mathlib

/-!
Verification development for the `caelestia lidmonitor` subcommand
(`src/caelestia/subcommands/lidmonitor.py`): a laptop-lid watcher that
polls `/proc/acpi/button/lid/LID/state`, triggers a screen lock through an
ordered chain of five external mechanisms when the lid closes, and manages
a singleton daemon through a PID file at `/tmp/caelestia_lid_monitor.pid`.

The Python code is shallowly embedded: external effects (subprocess
invocations, `os.kill` probes, file contents) are supplied as explicit
oracle arguments; Python exception flow is made explicit with `Except`,
where `Except.error e` means the exception `e` escapes the modelled
region of code.
-/

namespace LidMonitor

/-- The Python exceptions (all derived from `Exception`) that the modelled
library calls can raise: `int()` raises `ValueError`; `os.kill` raises
`ProcessLookupError` or `PermissionError`; `Path.read_text`/`Path.exists`
interplay raises `FileNotFoundError` (raised explicitly by
`get_lid_state`); `ioError` stands for any other `OSError`. -/
inductive PyExn
  | valueError
  | processLookup
  | permission
  | fileNotFound
  | ioError
deriving DecidableEq

/-- Outcome of one `subprocess.run(cmd, capture_output=True, text=True,
timeout=t)` call in `trigger_lock`: the process exited with `code`, the
call raised `subprocess.TimeoutExpired`, raised `FileNotFoundError`
(command not installed), or raised some other exception `e`. -/
inductive AttemptOutcome
  | exit (code : Int)
  | timeout
  | notFound
  | raised (e : PyExn)
deriving DecidableEq

/-- Oracle giving the outcome of invoking an external command with a
timeout (in seconds). -/
abbrev Exec := List String → Nat → AttemptOutcome

/-- The test `result.returncode == 0`, the success test applied to every mechanism. -/
def isSuccess : AttemptOutcome → Bool
  | .exit code => code == 0
  | _ => false

/-- Mechanism 1: `hyprctl dispatch global caelestia:lock` (timeout 5). -/
def cmd1 : List String := ["hyprctl", "dispatch", "global", "caelestia:lock"]

/-- Mechanism 2: `caelestia shell caelestia:lock` (timeout 5). -/
def cmd2 : List String := ["caelestia", "shell", "caelestia:lock"]

/-- Mechanism 3: `hyprctl dispatch exec "caelestia shell caelestia:lock"` (timeout 5). -/
def cmd3 : List String := ["hyprctl", "dispatch", "exec", "caelestia shell caelestia:lock"]

/-- Mechanism 4: `loginctl lock-session` (timeout 5). -/
def cmd4 : List String := ["loginctl", "lock-session"]

/-- Mechanism 5: `swaylock` (timeout 2). -/
def cmd5 : List String := ["swaylock"]

/-- One `try: result = subprocess.run(cmd, ..., timeout=t) ... except
(subprocess.TimeoutExpired, FileNotFoundError)` block of `trigger_lock`:
exit code 0 returns `True` immediately; a nonzero exit is logged and falls
through to the continuation `k`, as do the two caught exception types; any
other exception propagates out of the block. -/
def attemptThen (exec : Exec) (cmd : List String) (t : Nat)
    (k : Unit → Except PyExn (Option Bool)) : Except PyExn (Option Bool) :=
  match exec cmd t with
  | .exit code => if code = 0 then .ok (some true) else k ()
  | .timeout => k ()
  | .notFound => k ()
  | .raised e => .error e

/-- The body of the outer `try:` of `trigger_lock` (lines 201-277): the
five mechanism attempts in source order with their source timeouts.
`.ok (some b)` models an early `return b`; `.ok none` models falling off
the end of the `try` block; `.error e` models an exception escaping to the
outer handler. -/
def lockBody (exec : Exec) : Except PyExn (Option Bool) :=
  attemptThen exec cmd1 5 fun _ =>
  attemptThen exec cmd2 5 fun _ =>
  attemptThen exec cmd3 5 fun _ =>
  attemptThen exec cmd4 5 fun _ =>
  attemptThen exec cmd5 2 fun _ =>
  .ok none

/-- Embedding of `Command.trigger_lock` (lines 199-283). The outer `except Exception`
catches every `PyExn`, logs it, and control reaches the final
`return False`; falling off the `try` also reaches `return False`. The
`Except` in the result type records whether an exception escapes
`trigger_lock` itself to its caller. -/
def trigger_lock (exec : Exec) : Except PyExn Bool :=
  match lockBody exec with
  | .ok (some b) => .ok b
  | .ok none => .ok false
  | .error _ => .ok false

/-- Attempt-counting mirror of `attemptThen`: the subprocess is invoked
exactly once per reached block; success and an uncaught exception both
stop the chain after this invocation. -/
def attemptsThen (exec : Exec) (cmd : List String) (t : Nat) (k : Unit → Nat) : Nat :=
  match exec cmd t with
  | .exit code => if code = 0 then 1 else 1 + k ()
  | .timeout => 1 + k ()
  | .notFound => 1 + k ()
  | .raised _ => 1

/-- Number of subprocess invocations `trigger_lock` performs. -/
def lockAttempts (exec : Exec) : Nat :=
  attemptsThen exec cmd1 5 fun _ =>
  attemptsThen exec cmd2 5 fun _ =>
  attemptsThen exec cmd3 5 fun _ =>
  attemptsThen exec cmd4 5 fun _ =>
  attemptsThen exec cmd5 2 fun _ =>
  0

/-- Python substring containment on character lists: `pat` occurs
contiguously somewhere in the list (`pat in line`). -/
def hasSubAux (pat : List Char) : List Char → Bool
  | [] => pat.isEmpty
  | c :: cs => pat.isPrefixOf (c :: cs) || hasSubAux pat cs

/-- Python `pat in s` for strings. -/
def hasSub (pat s : String) : Bool :=
  hasSubAux pat.toList s.toList

/-- Python `str.strip()` on a character list: drop whitespace from both
ends (the lid file holds only ASCII, where `Char.isWhitespace` agrees with
Python). -/
def pyStrip (l : List Char) : List Char :=
  ((l.dropWhile Char.isWhitespace).reverse.dropWhile Char.isWhitespace).reverse

/-- Python `str.split(sep)` on a character list: split at every occurrence
of `sep`, keeping empty pieces, so that splitting the empty string yields
one empty piece. -/
def pySplit (sep : Char) : List Char → List (List Char)
  | [] => [[]]
  | c :: cs =>
    let r := pySplit sep cs
    if c = sep then [] :: r
    else
      match r with
      | x :: xs => (c :: x) :: xs
      | [] => [[c]]

/-- Embedding of `Command.get_lid_state` (lines 141-151). `pathExists` is
`self.lid_state_path.exists()`; `raw` is `read_text()`. If the path is
absent it raises `FileNotFoundError`; otherwise it strips the content,
keeps the lines containing `state:`, and returns the text between the
first and second colon of the first such line, stripped
(`state_line[0].split(':')[1].strip()`), or `unknown` when no line
matches. -/
def get_lid_state (pathExists : Bool) (raw : String) : Except PyExn String :=
  if pathExists = false then .error .fileNotFound
  else
    let content := pyStrip raw.toList
    let stateLines := (pySplit '\n' content).filter (fun line => hasSubAux "state:".toList line)
    match stateLines with
    | [] => .ok "unknown"
    | l :: _ => .ok (String.mk (pyStrip ((pySplit ':' l).getD 1 [])))

/-- The external inputs one iteration of the `while self.running:` loop of
`monitor_lid` consumes: the result of `self.get_lid_state()` and the
subprocess oracle seen by `trigger_lock` if the dispatcher is invoked
this tick. -/
structure TickInput where
  read : Except PyExn String
  exec : Exec

/-- Observable effects of one loop iteration of `monitor_lid`
(lines 172-191). -/
structure TickResult where
  lastState : Option String
  lockCalls : Nat
  transitionLogged : Bool
  lockWarningLogged : Bool
  openLogged : Bool
  readErrorLogged : Bool
  sleepMs : Nat

/-- One iteration of the `try:`/`except Exception:` body of the monitor
loop: on a successful read, a state change with `last_state` present is
logged; a change to `closed` invokes `trigger_lock` (a `False` result logs
the protection warning); a change to `open` logs lid-opened; then
`last_state` is updated and the loop sleeps 0.5s. Any exception in the
body (a read failure, or a hypothetical exception escaping
`trigger_lock`) is logged and followed by a 1s sleep, leaving
`last_state` unchanged. -/
def tick (last : Option String) (inp : TickInput) : TickResult :=
  match inp.read with
  | .error _ =>
    { lastState := last, lockCalls := 0, transitionLogged := false,
      lockWarningLogged := false, openLogged := false,
      readErrorLogged := true, sleepMs := 1000 }
  | .ok current =>
    let isTrans : Bool :=
      match last with
      | none => false
      | some l => l != current
    if isTrans && (current == "closed") then
      match trigger_lock inp.exec with
      | .ok lockOk =>
        { lastState := some current, lockCalls := 1, transitionLogged := true,
          lockWarningLogged := !lockOk, openLogged := false,
          readErrorLogged := false, sleepMs := 500 }
      | .error _ =>
        { lastState := last, lockCalls := 1, transitionLogged := true,
          lockWarningLogged := false, openLogged := false,
          readErrorLogged := true, sleepMs := 1000 }
    else
      { lastState := some current, lockCalls := 0, transitionLogged := isTrans,
        lockWarningLogged := false, openLogged := isTrans && (current == "open"),
        readErrorLogged := false, sleepMs := 500 }

/-- Accumulated observables of a finite run of the monitor loop. -/
structure LoopTrace where
  finalLast : Option String
  lockCalls : Nat
  ticks : Nat

/-- Run the monitor loop over a finite list of tick inputs (the list
length models how many iterations happen before `running` is cleared by a
shutdown signal). The loop body never clears `running` and its
`except Exception:` handler absorbs every tick error, so every input is
consumed. -/
def runTicks : Option String → List TickInput → LoopTrace
  | last, [] => { finalLast := last, lockCalls := 0, ticks := 0 }
  | last, inp :: rest =>
    let r := tick last inp
    let t := runTicks r.lastState rest
    { finalLast := t.finalLast, lockCalls := r.lockCalls + t.lockCalls, ticks := 1 + t.ticks }

/-- Observable outcome of one call to `Command.monitor_lid`
(lines 153-197). `pidFileBefore` records whether the PID file exists when
the call starts (`monitor_lid` itself never writes it). -/
structure MonitorRun where
  loopEntered : Bool
  startErrorLogged : Bool
  cleanupCalled : Bool
  pidFileAfter : Bool
  trace : LoopTrace

/-- Embedding of `Command.monitor_lid`: when the lid-state path is missing it logs an
error and returns before the `try:`/`finally:` block, touching nothing;
otherwise it runs the polling loop and the `finally:` block always calls
`cleanup()`, which deletes the PID file if it exists. -/
def monitor_lid (pathExists : Bool) (pidFileBefore : Bool)
    (inputs : List TickInput) : MonitorRun :=
  if pathExists = false then
    { loopEntered := false, startErrorLogged := true, cleanupCalled := false,
      pidFileAfter := pidFileBefore, trace := { finalLast := none, lockCalls := 0, ticks := 0 } }
  else
    { loopEntered := true, startErrorLogged := false, cleanupCalled := true,
      pidFileAfter := false, trace := runTicks none inputs }

/-- The child branch of `Command.start_daemon` (lines 67-76): after
`os.setsid()`/`os.chdir`/`os.umask` the child writes its own PID to the
PID file (so the file exists) and then calls `monitor_lid`; when
`monitor_lid` returns, `start_daemon` returns and the daemon process
exits. -/
def start_daemon_child (pathExists : Bool) (inputs : List TickInput) : MonitorRun :=
  monitor_lid pathExists true inputs

/-- Decimal value of a digit list. -/
def digitsVal (l : List Char) : Nat :=
  l.foldl (fun n c => 10 * n + (c.toNat - 48)) 0

/-- Python `int(s)` on the stripped PID-file text: surrounding whitespace
then an optional single sign followed by at least one decimal digit;
anything else raises `ValueError` (`none`). -/
def pyParseInt (s : String) : Option Int :=
  let t := pyStrip s.toList
  let signAndDigits : Int × List Char :=
    match t with
    | '+' :: rest => (1, rest)
    | '-' :: rest => (-1, rest)
    | l => (1, l)
  if signAndDigits.2.isEmpty then none
  else if signAndDigits.2.all Char.isDigit then
    some (signAndDigits.1 * Int.ofNat (digitsVal signAndDigits.2))
  else none

/-- Outcome of one `os.kill(pid, sig)` call: success, `ProcessLookupError`
(no such process), or `PermissionError` (the pid exists but belongs to
another user). -/
inductive KillOutcome
  | ok
  | noProcess
  | permDenied
deriving DecidableEq

/-- The external world `Command.stop_daemon` interacts with:
the PID file's content (`none` when the file does not exist), the outcome
of `os.kill(pid, SIGTERM)`, the outcome of the i-th `os.kill(pid, 0)`
probe of the wait loop, and the outcome of `os.kill(pid, SIGKILL)`. -/
structure StopEnv where
  pidFileContents : Option String
  killTerm : KillOutcome
  killProbe : Nat → KillOutcome
  killKill : KillOutcome

/-- The `for _ in range(10): try: os.kill(pid, 0); time.sleep(0.5) except
ProcessLookupError: break` wait loop (lines 89-94), probing from index `i`
with `fuel` probes left. `.ok true` means the loop ended via `break`
(process gone); `.ok false` means all probes ran without a break, so the
`else:` clause of the `for` runs; a `PermissionError` from a probe is not
caught here and propagates. -/
def probeAux (probe : Nat → KillOutcome) : Nat → Nat → Except PyExn Bool
  | _, 0 => .ok false
  | i, fuel + 1 =>
    match probe i with
    | .ok => probeAux probe (i + 1) fuel
    | .noProcess => .ok true
    | .permDenied => .error .permission

/-- The body of the `try:` of `stop_daemon` (lines 84-105), for a PID file
with content `contents`: parse the PID (`ValueError` on bad text), send
SIGTERM, wait up to 10 probes for death, SIGKILL if still alive
(`ProcessLookupError` from the SIGKILL is passed over), then `cleanup()`
and report stopped. `.error` is an exception escaping the block. -/
def stopBody (contents : String) (env : StopEnv) : Except PyExn Unit :=
  match pyParseInt contents with
  | none => .error .valueError
  | some _ =>
    match env.killTerm with
    | .noProcess => .error .processLookup
    | .permDenied => .error .permission
    | .ok =>
      match probeAux env.killProbe 0 10 with
      | .error e => .error e
      | .ok true => .ok ()
      | .ok false =>
        match env.killKill with
        | .ok => .ok ()
        | .noProcess => .ok ()
        | .permDenied => .error .permission

/-- Observable outcome of `Command.stop_daemon`. -/
structure StopResult where
  pidFileAfter : Bool
  notFoundMsg : Bool
  stoppedMsg : Bool
  failedMsg : Bool

/-- Embedding of `Command.stop_daemon` (lines 78-109). No PID file is a no-op with a
"not found" message. Otherwise the body runs; `except (ValueError,
ProcessLookupError, PermissionError)` prints a failure message and still
calls `cleanup()`; any exception outside that tuple would escape
(`Except.error`). On the success path `cleanup()` ran before the stopped
message. In every handled path the PID file is gone afterwards. -/
def stop_daemon (env : StopEnv) : Except PyExn StopResult :=
  match env.pidFileContents with
  | none =>
    .ok { pidFileAfter := false, notFoundMsg := true, stoppedMsg := false, failedMsg := false }
  | some contents =>
    match stopBody contents env with
    | .ok _ =>
      .ok { pidFileAfter := false, notFoundMsg := false, stoppedMsg := true, failedMsg := false }
    | .error e =>
      match e with
      | .valueError =>
        .ok { pidFileAfter := false, notFoundMsg := false, stoppedMsg := false, failedMsg := true }
      | .processLookup =>
        .ok { pidFileAfter := false, notFoundMsg := false, stoppedMsg := false, failedMsg := true }
      | .permission =>
        .ok { pidFileAfter := false, notFoundMsg := false, stoppedMsg := false, failedMsg := true }
      | _ => .error e

/-- The body of the `try:` of `is_daemon_running` (lines 133-136): parse
the PID-file text, then probe the process with `os.kill(pid, 0)`. -/
def isRunningBody (contents : String) (probe : KillOutcome) : Except PyExn Bool :=
  match pyParseInt contents with
  | none => .error .valueError
  | some _ =>
    match probe with
    | .ok => .ok true
    | .noProcess => .error .processLookup
    | .permDenied => .error .permission

/-- Embedding of `Command.is_daemon_running` (lines 128-139), returning
(result, PID file exists afterwards). A missing PID file is `False`.
`except (ValueError, ProcessLookupError)` calls `cleanup()` (deleting the
stale file) and returns `False`; a `PermissionError` from the probe is
outside the tuple and escapes to the caller. -/
def is_daemon_running (contents : Option String) (probe : KillOutcome) :
    Except PyExn (Bool × Bool) :=
  match contents with
  | none => .ok (false, false)
  | some c =>
    match isRunningBody c probe with
    | .ok b => .ok (b, true)
    | .error .valueError => .ok (false, false)
    | .error .processLookup => .ok (false, false)
    | .error e => .error e

/-- Observable outcome of `Command.show_status`: whether the daemon was
reported running, and the lid state shown (`none` when reading it failed
and the error message was printed instead). -/
structure StatusReport where
  runningReported : Bool
  lidShown : Option String

/-- Embedding of `Command.show_status` (lines 111-126): reports on the daemon via
`is_daemon_running` (whose escaping exceptions propagate), then prints the
lid state inside a `try:`/`except Exception:` that absorbs any read
failure. -/
def show_status (contents : Option String) (probe : KillOutcome)
    (lid : Except PyExn String) : Except PyExn StatusReport :=
  match is_daemon_running contents probe with
  | .error e => .error e
  | .ok (running, _) =>
    .ok { runningReported := running,
          lidShown := match lid with | .ok s => some s | .error _ => none }

/-- Concrete oracle for witnesses: only mechanism 2 exits with code 0. -/
def execW : Exec := fun c _ => if c = cmd2 then .exit 0 else .exit 1

/-- Concrete oracle for witnesses: every mechanism exits with code 1. -/
def execFail : Exec := fun _ _ => .exit 1

/-- Concrete tick input for witnesses: the lid reads `closed` and
mechanism 1 succeeds. -/
def inpClosed : TickInput := { read := Except.ok "closed", exec := fun _ _ => .exit 0 }

/-- Concrete tick input for witnesses: the lid read raises. -/
def inpErr : TickInput := { read := Except.error PyExn.ioError, exec := fun _ _ => .exit 0 }

/-- Concrete tick input for witnesses: the lid reads `closed` and all
five mechanisms fail. -/
def inpAllFail : TickInput := { read := Except.ok "closed", exec := execFail }

/-- Concrete stop environment for witnesses: a PID file holding `123`
whose process is already gone when SIGTERM is sent. -/
def stopEnvW : StopEnv :=
  { pidFileContents := some "123", killTerm := KillOutcome.noProcess,
    killProbe := fun _ => KillOutcome.ok, killKill := KillOutcome.ok }

/-- Concrete lid-file content for witnesses, in the `/proc` format. -/
def rawW : String := "button/lid\nstate:      closed\nextra: x"

/- ### Helper lemmas -/

theorem attemptThen_succ {exec : Exec} {c : List String} {t : Nat}
    {k : Unit → Except PyExn (Option Bool)} (h : isSuccess (exec c t) = true) :
    attemptThen exec c t k = .ok (some true) := by
  unfold attemptThen
  rcases hx : exec c t with code | _ | _ | e <;> rw [hx] at h <;> simp [isSuccess] at h
  simp [h]

theorem attemptThen_fall {exec : Exec} {c : List String} {t : Nat}
    {k : Unit → Except PyExn (Option Bool)} (h : isSuccess (exec c t) = false)
    (hb : ∀ e, exec c t ≠ AttemptOutcome.raised e) :
    attemptThen exec c t k = k () := by
  unfold attemptThen
  rcases hx : exec c t with code | _ | _ | e
  · rw [hx] at h
    simp [isSuccess] at h
    simp [h]
  · rfl
  · rfl
  · exact absurd hx (hb e)

theorem attemptsThen_succ {exec : Exec} {c : List String} {t : Nat}
    {k : Unit → Nat} (h : isSuccess (exec c t) = true) :
    attemptsThen exec c t k = 1 := by
  unfold attemptsThen
  rcases hx : exec c t with code | _ | _ | e <;> rw [hx] at h <;> simp [isSuccess] at h
  simp [h]

theorem attemptsThen_fall {exec : Exec} {c : List String} {t : Nat}
    {k : Unit → Nat} (h : isSuccess (exec c t) = false)
    (hb : ∀ e, exec c t ≠ AttemptOutcome.raised e) :
    attemptsThen exec c t k = 1 + k () := by
  unfold attemptsThen
  rcases hx : exec c t with code | _ | _ | e
  · rw [hx] at h
    simp [isSuccess] at h
    simp [h]
  · rfl
  · rfl
  · exact absurd hx (hb e)

theorem trigger_lock_isOk (exec : Exec) : ∃ b, trigger_lock exec = Except.ok b := by
  unfold trigger_lock
  rcases h : lockBody exec with e | o
  · exact ⟨false, rfl⟩
  · rcases o with _ | b
    · exact ⟨false, rfl⟩
    · exact ⟨b, rfl⟩

theorem trigger_lock_allFail (exec : Exec)
    (hf : ∀ c t, isSuccess (exec c t) = false)
    (hb : ∀ c t e, exec c t ≠ AttemptOutcome.raised e) :
    trigger_lock exec = Except.ok false := by
  have hbody : lockBody exec = .ok none := by
    unfold lockBody
    rw [attemptThen_fall (hf cmd1 5) (hb cmd1 5), attemptThen_fall (hf cmd2 5) (hb cmd2 5),
       attemptThen_fall (hf cmd3 5) (hb cmd3 5), attemptThen_fall (hf cmd4 5) (hb cmd4 5),
       attemptThen_fall (hf cmd5 2) (hb cmd5 2)]
  unfold trigger_lock
  rw [hbody]

/- ### Claim theorems -/

/-- Claim C1: `trigger_lock` attempts the five external lock mechanisms in
the fixed source order (hyprctl global dispatch, caelestia shell lock,
hyprctl exec dispatch, loginctl, swaylock) with timeouts 5s/5s/5s/5s/2s,
returns `True` at the first mechanism whose process exits with code zero
without attempting later ones, and returns `False` only when all five
were attempted and none succeeded. Stated for runs in which each
invocation has one of the benign outcomes the spec enumerates (exit code,
timeout, command not found). -/
theorem claim_C1 (exec : Exec) (hb : ∀ c t e, exec c t ≠ AttemptOutcome.raised e) :
    ((trigger_lock exec = Except.ok false) ↔
      (isSuccess (exec cmd1 5) = false ∧ isSuccess (exec cmd2 5) = false ∧
       isSuccess (exec cmd3 5) = false ∧ isSuccess (exec cmd4 5) = false ∧
       isSuccess (exec cmd5 2) = false)) ∧
    (trigger_lock exec = Except.ok false → lockAttempts exec = 5) ∧
    (isSuccess (exec cmd1 5) = true →
       trigger_lock exec = Except.ok true ∧ lockAttempts exec = 1) ∧
    (isSuccess (exec cmd1 5) = false → isSuccess (exec cmd2 5) = true →
       trigger_lock exec = Except.ok true ∧ lockAttempts exec = 2) ∧
    (isSuccess (exec cmd1 5) = false → isSuccess (exec cmd2 5) = false →
       isSuccess (exec cmd3 5) = true →
       trigger_lock exec = Except.ok true ∧ lockAttempts exec = 3) ∧
    (isSuccess (exec cmd1 5) = false → isSuccess (exec cmd2 5) = false →
       isSuccess (exec cmd3 5) = false → isSuccess (exec cmd4 5) = true →
       trigger_lock exec = Except.ok true ∧ lockAttempts exec = 4) ∧
    (isSuccess (exec cmd1 5) = false → isSuccess (exec cmd2 5) = false →
       isSuccess (exec cmd3 5) = false → isSuccess (exec cmd4 5) = false →
       isSuccess (exec cmd5 2) = true →
       trigger_lock exec = Except.ok true ∧ lockAttempts exec = 5) := by
  have hb1 := fun e => hb cmd1 5 e
  have hb2 := fun e => hb cmd2 5 e
  have hb3 := fun e => hb cmd3 5 e
  have hb4 := fun e => hb cmd4 5 e
  have hb5 := fun e => hb cmd5 2 e
  cases h1 : isSuccess (exec cmd1 5) with
  | true =>
    have tl : trigger_lock exec = Except.ok true := by
      unfold trigger_lock lockBody
      rw [attemptThen_succ h1]
    have la : lockAttempts exec = 1 := by
      unfold lockAttempts
      rw [attemptsThen_succ h1]
    simp [tl, la, h1]
  | false =>
    cases h2 : isSuccess (exec cmd2 5) with
    | true =>
      have tl : trigger_lock exec = Except.ok true := by
        unfold trigger_lock lockBody
        rw [attemptThen_fall h1 hb1, attemptThen_succ h2]
      have la : lockAttempts exec = 2 := by
        unfold lockAttempts
        rw [attemptsThen_fall h1 hb1, attemptsThen_succ h2]
      simp [tl, la, h1, h2]
    | false =>
      cases h3 : isSuccess (exec cmd3 5) with
      | true =>
        have tl : trigger_lock exec = Except.ok true := by
          unfold trigger_lock lockBody
          rw [attemptThen_fall h1 hb1, attemptThen_fall h2 hb2, attemptThen_succ h3]
        have la : lockAttempts exec = 3 := by
          unfold lockAttempts
          rw [attemptsThen_fall h1 hb1, attemptsThen_fall h2 hb2, attemptsThen_succ h3]
        simp [tl, la, h1, h2, h3]
      | false =>
        cases h4 : isSuccess (exec cmd4 5) with
        | true =>
          have tl : trigger_lock exec = Except.ok true := by
            unfold trigger_lock lockBody
            rw [attemptThen_fall h1 hb1, attemptThen_fall h2 hb2,
               attemptThen_fall h3 hb3, attemptThen_succ h4]
          have la : lockAttempts exec = 4 := by
            unfold lockAttempts
            rw [attemptsThen_fall h1 hb1, attemptsThen_fall h2 hb2,
               attemptsThen_fall h3 hb3, attemptsThen_succ h4]
          simp [tl, la, h1, h2, h3, h4]
        | false =>
          cases h5 : isSuccess (exec cmd5 2) with
          | true =>
            have tl : trigger_lock exec = Except.ok true := by
              unfold trigger_lock lockBody
              rw [attemptThen_fall h1 hb1, attemptThen_fall h2 hb2,
                 attemptThen_fall h3 hb3, attemptThen_fall h4 hb4, attemptThen_succ h5]
            have la : lockAttempts exec = 5 := by
              unfold lockAttempts
              rw [attemptsThen_fall h1 hb1, attemptsThen_fall h2 hb2,
                 attemptsThen_fall h3 hb3, attemptsThen_fall h4 hb4, attemptsThen_succ h5]
            simp [tl, la, h1, h2, h3, h4, h5]
          | false =>
            have hbody : lockBody exec = Except.ok none := by
              unfold lockBody
              rw [attemptThen_fall h1 hb1, attemptThen_fall h2 hb2,
                 attemptThen_fall h3 hb3, attemptThen_fall h4 hb4,
                 attemptThen_fall h5 hb5]
            have tl : trigger_lock exec = Except.ok false := by
              unfold trigger_lock
              rw [hbody]
            have la : lockAttempts exec = 5 := by
              unfold lockAttempts
              rw [attemptsThen_fall h1 hb1, attemptsThen_fall h2 hb2,
                 attemptsThen_fall h3 hb3, attemptsThen_fall h4 hb4,
                 attemptsThen_fall h5 hb5]
            simp [tl, la, h1, h2, h3, h4, h5]

/-- Witness for C1: with mechanism 1 exiting 1 and mechanism 2 exiting 0,
`trigger_lock` returns `True` after exactly two attempts. -/
theorem claim_C1_witness :
    trigger_lock execW = Except.ok true ∧ lockAttempts execW = 2 := by
  have hbW : ∀ c t e, execW c t ≠ AttemptOutcome.raised e := by
    intro c t e h
    unfold execW at h
    by_cases hc : c = cmd2 <;> simp [hc] at h
  exact (claim_C1 execW hbW).2.2.2.1 rfl rfl

/-- Claim C10: `trigger_lock` is total at its public interface — for every
combination of outcomes of the five subprocess invocations (exit code
zero, nonzero exit, timeout, command not found, or any other raised
exception) it returns a boolean and never lets an exception escape to its
caller. -/
theorem claim_C10 (exec : Exec) : ∃ b, trigger_lock exec = Except.ok b :=
  trigger_lock_isOk exec

/-- Claim C2: in a monitor-loop iteration the Lock Dispatcher is invoked
exactly once precisely when the read state is `closed` and `last_state` is
present and different from `closed`; on the `open` → `closed` transition
the change is logged and `last_state` becomes `closed`; the dispatcher is
never invoked on the first poll (`last_state` absent) and never on a
transition to `open`. -/
theorem claim_C2 (last : Option String) (inp : TickInput) :
    ((tick last inp).lockCalls = 1 ↔
      (inp.read = Except.ok "closed" ∧ ∃ l, last = some l ∧ l ≠ "closed")) ∧
    (inp.read = Except.ok "closed" → last = some "open" →
      (tick last inp).lockCalls = 1 ∧ (tick last inp).transitionLogged = true ∧
      (tick last inp).lastState = some "closed") ∧
    (last = none → (tick last inp).lockCalls = 0) ∧
    (inp.read = Except.ok "open" → (tick last inp).lockCalls = 0) := by
  obtain ⟨b, hok⟩ := trigger_lock_isOk inp.exec
  rcases hr : inp.read with e | s
  · refine ⟨?_, ?_, ?_, ?_⟩ <;> simp [tick, hr]
  · rcases last with _ | l
    · refine ⟨?_, ?_, ?_, ?_⟩ <;> simp [tick, hr]
    · by_cases hs : s = "closed"
      · subst hs
        by_cases hl : l = "closed"
        · subst hl
          refine ⟨?_, ?_, ?_, ?_⟩ <;> simp [tick, hr]
        · refine ⟨?_, ?_, ?_, ?_⟩ <;> simp [tick, hr, hok, hl]
      · have hne : (s == "closed") = false := by
          simp [hs]
        refine ⟨?_, ?_, ?_, ?_⟩ <;> simp [tick, hr, hne, hs]

/-- Witness for C2: on an `open` → `closed` transition with mechanism 1
succeeding, the dispatcher runs once, the transition is logged, and
`last_state` becomes `closed`. -/
theorem claim_C2_witness :
    (tick (some "open") inpClosed).lockCalls = 1 ∧
    (tick (some "open") inpClosed).transitionLogged = true ∧
    (tick (some "open") inpClosed).lastState = some "closed" :=
  (claim_C2 (some "open") inpClosed).2.1 rfl rfl

/-- Claim C3: `get_lid_state` returns `unknown` when no line of the
stripped content contains `state:`; otherwise it takes the first line
containing `state:`, splits it on `:`, and returns the token after the
first colon, stripped — so a line `state:      closed` yields `closed`
and `state:      open` yields `open`. -/
theorem claim_C3 (raw : String) :
    ((∀ line ∈ pySplit '\n' (pyStrip raw.toList),
        hasSubAux "state:".toList line = false) →
      get_lid_state true raw = Except.ok "unknown") ∧
    (∀ l, (pySplit '\n' (pyStrip raw.toList)).find?
        (fun line => hasSubAux "state:".toList line) = some l →
      get_lid_state true raw =
        Except.ok (String.mk (pyStrip ((pySplit ':' l).getD 1 [])))) ∧
    get_lid_state true "state:      closed" = Except.ok "closed" ∧
    get_lid_state true "state:      open" = Except.ok "open" := by
  refine ⟨?_, ?_, rfl, rfl⟩
  · intro h
    have hnil : (pySplit '\n' (pyStrip raw.toList)).filter
        (fun line => hasSubAux "state:".toList line) = [] := by
      rw [List.filter_eq_nil_iff]
      intro a ha
      simp only [Bool.not_eq_true]
      exact h a ha
    unfold get_lid_state
    simp only [hnil]
    rfl
  · intro l hl
    have hhead : ((pySplit '\n' (pyStrip raw.toList)).filter
        (fun line => hasSubAux "state:".toList line)).head? = some l := by
      rw [List.filter_head?]
      exact hl
    obtain ⟨ys, hys⟩ := List.head?_eq_some_iff.mp hhead
    unfold get_lid_state
    simp only [hys]
    rfl

/-- Witness for C3: on a realistic three-line lid file whose second line
is the first to contain `state:`, the parser returns `closed`. -/
theorem claim_C3_witness : get_lid_state true rawW = Except.ok "closed" :=
  (claim_C3 rawW).2.1 "state:      closed".toList rfl

/-- Claim C4: when the lid-state path does not exist, `get_lid_state`
fails with `FileNotFoundError`, and `monitor_lid` logs an error and
returns immediately — the polling loop is never entered and the PID file
is left exactly as it was (in particular, none is created). -/
theorem claim_C4 (raw : String) (pidFileBefore : Bool) (inputs : List TickInput) :
    get_lid_state false raw = Except.error PyExn.fileNotFound ∧
    (monitor_lid false pidFileBefore inputs).loopEntered = false ∧
    (monitor_lid false pidFileBefore inputs).startErrorLogged = true ∧
    (monitor_lid false pidFileBefore inputs).pidFileAfter = pidFileBefore ∧
    (monitor_lid false false inputs).pidFileAfter = false :=
  ⟨rfl, rfl, rfl, rfl, rfl⟩

/-- Claim C9: if the daemon start path forks and the lid-state path is
absent, the child has already written the PID file when `monitor_lid`
performs its startup check, and the early return bypasses the
`finally:` cleanup — the daemon exits leaving the PID file behind
(stale, since its process no longer exists). -/
theorem claim_C9 (inputs : List TickInput) :
    (start_daemon_child false inputs).pidFileAfter = true ∧
    (start_daemon_child false inputs).loopEntered = false ∧
    (start_daemon_child false inputs).cleanupCalled = false :=
  ⟨rfl, rfl, rfl⟩

/-- Every exception the `stopBody` wait loop can let out is a
`PermissionError`. -/
theorem probeAux_error (probe : Nat → KillOutcome) :
    ∀ fuel i e, probeAux probe i fuel = Except.error e → e = PyExn.permission := by
  intro fuel
  induction fuel with
  | zero =>
    intro i e h
    exact absurd h (by simp [probeAux])
  | succ n ih =>
    intro i e h
    unfold probeAux at h
    rcases hp : probe i with _ | _ | _ <;> rw [hp] at h
    · exact ih (i + 1) e h
    · exact absurd h (by simp)
    · injection h with h
      exact h.symm

/-- Every exception `stopBody` can let out is one of the three caught by
`stop_daemon`. -/
theorem stopBody_error (contents : String) (env : StopEnv) :
    ∀ e, stopBody contents env = Except.error e →
      e = PyExn.valueError ∨ e = PyExn.processLookup ∨ e = PyExn.permission := by
  intro e h
  unfold stopBody at h
  rcases hp : pyParseInt contents with _ | n <;> rw [hp] at h
  · injection h with h
    exact Or.inl h.symm
  · rcases ht : env.killTerm with _ | _ | _ <;> rw [ht] at h
    · rcases hw : probeAux env.killProbe 0 10 with e2 | b <;> rw [hw] at h
      · injection h with h
        subst h
        exact Or.inr (Or.inr (probeAux_error env.killProbe 10 0 e2 hw))
      · rcases b with _ | _
        · rcases hk : env.killKill with _ | _ | _ <;> rw [hk] at h
          · exact absurd h (by simp)
          · exact absurd h (by simp)
          · injection h with h
            exact Or.inr (Or.inr h.symm)
        · exact absurd h (by simp)
    · injection h with h
      exact Or.inr (Or.inl h.symm)
    · injection h with h
      exact Or.inr (Or.inr h.symm)

/-- Claim C5: whenever the `stop` operation completes (success path or
any handled failure path — missing PID file, invalid PID text,
missing-process or permission error while signalling), the PID file no
longer exists. -/
theorem claim_C5 (env : StopEnv) (r : StopResult)
    (h : stop_daemon env = Except.ok r) : r.pidFileAfter = false := by
  unfold stop_daemon at h
  rcases hc : env.pidFileContents with _ | contents <;> simp only [hc] at h
  · injection h with h
    rw [← h]
  · rcases hs : stopBody contents env with e | u
    · rcases e with _ | _ | _ | _ | _ <;> simp only [hs] at h
      · injection h with h
        rw [← h]
      · injection h with h
        rw [← h]
      · injection h with h
        rw [← h]
      · simp at h
      · simp at h
    · simp only [hs] at h
      injection h with h
      rw [← h]

/-- Witness for C5: stopping when the PID file holds `123` but the
process is already dead completes on the failure path with the PID file
removed. -/
theorem claim_C5_witness :
    stop_daemon stopEnvW = Except.ok
      { pidFileAfter := false, notFoundMsg := false, stoppedMsg := false, failedMsg := true } ∧
    ({ pidFileAfter := false, notFoundMsg := false, stoppedMsg := false,
       failedMsg := true } : StopResult).pidFileAfter = false :=
  ⟨rfl, claim_C5 stopEnvW _ rfl⟩

/-- Claim C6: when the PID file exists but holds non-integer text, or the
id of a process that no longer exists, `is_daemon_running` returns
`False` and deletes the stale PID file. -/
theorem claim_C6 (c : String) (probe : KillOutcome) :
    (pyParseInt c = none →
      is_daemon_running (some c) probe = Except.ok (false, false)) ∧
    (probe = KillOutcome.noProcess →
      is_daemon_running (some c) probe = Except.ok (false, false)) := by
  constructor
  · intro h
    unfold is_daemon_running isRunningBody
    simp only [h]
  · intro h
    subst h
    unfold is_daemon_running isRunningBody
    rcases hp : pyParseInt c with _ | n <;> simp only [hp]

/-- Witness for C6: a PID file holding the non-numeric text `stale`, and
one holding `123` for a dead process, both yield `False` with the file
deleted. -/
theorem claim_C6_witness :
    is_daemon_running (some "stale") KillOutcome.ok = Except.ok (false, false) ∧
    is_daemon_running (some "123") KillOutcome.noProcess = Except.ok (false, false) :=
  ⟨(claim_C6 "stale" KillOutcome.ok).1 rfl,
   (claim_C6 "123" KillOutcome.noProcess).2 rfl⟩

/-- Claim C7: errors during a monitor-loop tick never stop the loop. A
lid-read failure is logged, followed by the longer 1s sleep (versus the
normal 0.5s) and a retry with `last_state` unchanged, and the remaining
ticks still run. When all five lock mechanisms fail benignly,
`trigger_lock` returns `False`, the tick logs the protection warning,
and the remaining ticks still run. -/
theorem claim_C7 (last : Option String) (inp : TickInput) (rest : List TickInput) :
    (∀ e, inp.read = Except.error e →
      (tick last inp).readErrorLogged = true ∧ (tick last inp).sleepMs = 1000 ∧
      (tick last inp).lastState = last ∧
      (runTicks last (inp :: rest)).ticks = 1 + (runTicks last rest).ticks) ∧
    (∀ exec2 : Exec, (∀ c t, isSuccess (exec2 c t) = false) →
      (∀ c t e, exec2 c t ≠ AttemptOutcome.raised e) →
      trigger_lock exec2 = Except.ok false) ∧
    (inp.read = Except.ok "closed" → last = some "open" →
      (∀ c t, isSuccess (inp.exec c t) = false) →
      (∀ c t e, inp.exec c t ≠ AttemptOutcome.raised e) →
      (tick last inp).lockWarningLogged = true ∧
      (runTicks last (inp :: rest)).ticks = 1 + (runTicks (some "closed") rest).ticks) := by
  refine ⟨?_, ?_, ?_⟩
  · intro e hr
    refine ⟨?_, ?_, ?_, ?_⟩ <;> simp [tick, runTicks, hr]
  · intro exec2 hf hb
    exact trigger_lock_allFail exec2 hf hb
  · intro hr hl hf hb
    subst hl
    have hfail := trigger_lock_allFail inp.exec hf hb
    constructor
    · simp [tick, hr, hfail]
    · simp [runTicks, tick, hr, hfail]

/-- Witness for C7: a failing read is logged, sleeps 1s, leaves
`last_state` unchanged, and the loop goes on; an `open` → `closed` tick
with all five mechanisms exiting 1 logs the protection warning and the
loop goes on. -/
theorem claim_C7_witness :
    ((tick none inpErr).readErrorLogged = true ∧ (tick none inpErr).sleepMs = 1000 ∧
     (tick none inpErr).lastState = none ∧
     (runTicks none [inpErr]).ticks = 1 + (runTicks none []).ticks) ∧
    ((tick (some "open") inpAllFail).lockWarningLogged = true ∧
     (runTicks (some "open") [inpAllFail]).ticks =
       1 + (runTicks (some "closed") []).ticks) :=
  ⟨(claim_C7 none inpErr []).1 PyExn.ioError rfl,
   (claim_C7 (some "open") inpAllFail []).2.2 rfl rfl (fun _ _ => rfl)
     (fun _ _ _ h => AttemptOutcome.noConfusion h)⟩

/-- Claim C8 counterexample: the singleton check lets an error escape to
its caller — with a PID file holding `123` whose process probe raises
`PermissionError` (the recorded pid now belongs to another user),
`is_daemon_running` propagates the exception instead of handling it
locally, refuting the claim that the singleton check never lets an error
escape. -/
theorem claim_C8_counterexample :
    is_daemon_running (some "123") KillOutcome.permDenied =
      Except.error PyExn.permission := rfl

/-- Claim C8 (amended): every failure among the modelled outcomes is
handled locally by `stop` (missing file, invalid PID text, process gone,
permission denied are all caught and converted to a clean no-op with the
PID file removed), and the singleton check and `status` handle
invalid-PID-text and process-not-found locally — but a `PermissionError`
raised while probing the recorded PID escapes the singleton check (and
hence `status`) to the caller. -/
theorem claim_C8_amended (env : StopEnv) (contents : Option String)
    (probe : KillOutcome) (lid : Except PyExn String)
    (h : probe ≠ KillOutcome.permDenied) :
    (∃ r, stop_daemon env = Except.ok r) ∧
    (∃ p, is_daemon_running contents probe = Except.ok p) ∧
    (∃ s, show_status contents probe lid = Except.ok s) := by
  have hrun : ∃ p, is_daemon_running contents probe = Except.ok p := by
    rcases contents with _ | c
    · exact ⟨(false, false), rfl⟩
    · unfold is_daemon_running isRunningBody
      rcases hp : pyParseInt c with _ | n <;> simp only [hp]
      · exact ⟨(false, false), rfl⟩
      · rcases probe with _ | _ | _
        · exact ⟨(true, true), rfl⟩
        · exact ⟨(false, false), rfl⟩
        · exact absurd rfl h
  refine ⟨?_, hrun, ?_⟩
  · unfold stop_daemon
    rcases hc : env.pidFileContents with _ | c
    · exact ⟨_, rfl⟩
    · rcases hs : stopBody c env with e | u <;> simp only [hs]
      · rcases stopBody_error c env e hs with he | he | he <;> subst he
        · exact ⟨_, rfl⟩
        · exact ⟨_, rfl⟩
        · exact ⟨_, rfl⟩
      · exact ⟨_, rfl⟩
  · obtain ⟨p, hp⟩ := hrun
    unfold show_status
    rcases p with ⟨running, after⟩
    simp only [hp]
    exact ⟨_, rfl⟩

/-- Witness for C8 (amended): concrete handled-locally runs of `stop`,
the singleton check, and `status`. -/
theorem claim_C8_witness :
    (∃ r, stop_daemon stopEnvW = Except.ok r) ∧
    (∃ p, is_daemon_running (some "123") KillOutcome.ok = Except.ok p) ∧
    (∃ s, show_status (some "123") KillOutcome.ok (Except.ok "open") = Except.ok s) :=
  claim_C8_amended stopEnvW (some "123") KillOutcome.ok (Except.ok "open")
    (fun hk => KillOutcome.noConfusion hk)

end LidMonitor
